import Mathlib

/-!
Shallow embedding of the fastify-api repository's Credential & Identity
component and Upload Streaming component, translated from
`src/services/userService.ts`, `src/routes/auth.ts`, `src/routes/users.ts`,
`src/middleware/auth.ts`, `src/middleware/admin.ts` and
`src/utils/fileUpload.ts`.

Persistence (Prisma/MySQL) is modelled as an in-memory list of user rows;
`findUnique` becomes `List.find?`.  bcryptjs is modelled as an injective
tagging function (the claims under study depend only on compare semantics,
not on the hash's cryptographic content).  The JWT library (@fastify/jwt)
is external to the repository and is modelled from the spec.  Errors are
the exact `Error` message strings the TypeScript code throws.
-/

/-- `UserRole` enum from `prisma/schema.prisma`: exactly `USER` and `ADMIN`. -/
inductive UserRole where
  | USER : UserRole
  | ADMIN : UserRole
deriving DecidableEq, Repr

/-- One row of the Prisma `User` model (the fields the service layer touches;
`createdAt`/`updatedAt` are timestamps irrelevant to the claims). -/
structure UserRow where
  id : Nat
  email : String
  password : String
  name : String
  avatar : Option String
  role : UserRole
deriving DecidableEq, Repr

/-- The database: the Prisma `User` table as a list of rows. -/
abbrev DB := List UserRow

/-- `prisma.user.findUnique({ where: { email } })`. -/
def findByEmail (db : DB) (email : String) : Option UserRow :=
  db.find? (fun u => u.email == email)

/-- `prisma.user.findUnique({ where: { id } })`. -/
def findById (db : DB) (id : Nat) : Option UserRow :=
  db.find? (fun u => u.id == id)

/-- Model of `bcrypt.hash(pw, 10)`: an opaque injective function of the
password (salt omitted; the claims depend only on compare semantics). -/
def bcryptHash (pw : String) : String :=
  "bcrypt$2a$10$" ++ pw

/-- Model of `bcrypt.compare(pw, hash)`: true exactly when `hash` was
produced from `pw`. -/
def bcryptCompare (pw : String) (hash : String) : Bool :=
  bcryptHash pw == hash

/-- `CreateUserRequest` from `src/types/user.ts`: `role` and `avatar`
are optional. -/
structure CreateUserRequest where
  email : String
  name : String
  password : String
  avatar : Option String
  role : Option UserRole
deriving DecidableEq, Repr

/-- `UpdateUserRequest` from `src/types/user.ts`: every field optional. -/
structure UpdateUserRequest where
  email : Option String
  name : Option String
  avatar : Option String
  role : Option UserRole
deriving DecidableEq, Repr

/-- `LoginRequest` from `src/types/user.ts`. -/
structure LoginRequest where
  email : String
  password : String
deriving DecidableEq, Repr

/-- JavaScript truthiness of an optional string: `undefined` and the empty
string are falsy, every other string is truthy (used by
`if (data.email && ...)` in `UserService.updateUser`). -/
def jsTruthy : Option String → Bool
  | none => false
  | some s => s != ""

/-- `UserService.createUser` from `src/services/userService.ts`.
Checks `findUnique` on the email, throws
`'User with this email already exists'` when a row exists; otherwise hashes
the password and inserts a row via `prisma.user.create({ data: { ...data,
password: hashedPassword } })`.  A missing `role` falls back to the Prisma
schema default `USER`; a supplied `role` is spread through unchanged.
`newId` stands for the autoincrement id MySQL assigns (always ≥ 1).
Returns the resulting table and either the created row or the thrown
message; on a throw the table is unchanged. -/
def createUser (db : DB) (data : CreateUserRequest) (newId : Nat) :
    DB × Except String UserRow :=
  match findByEmail db data.email with
  | some _ => (db, .error "User with this email already exists")
  | none =>
    let row : UserRow :=
      { id := newId
        email := data.email
        password := bcryptHash data.password
        name := data.name
        avatar := data.avatar
        role := data.role.getD .USER }
    (db ++ [row], .ok row)

/-- Applies an update payload to an existing row the way
`prisma.user.update({ where: { id }, data })` does: fields present in
`data` overwrite, absent fields are left alone. -/
def applyUpdate (row : UserRow) (data : UpdateUserRequest) : UserRow :=
  { row with
    email := data.email.getD row.email
    name := data.name.getD row.name
    avatar := match data.avatar with
      | some a => some a
      | none => row.avatar
    role := data.role.getD row.role }

/-- `UserService.updateUser` from `src/services/userService.ts`.
Looks the row up by id (`'User not found'` when absent); when the payload
carries a truthy email different from the current one, a second
`findUnique` on that email throws `'Email already in use'` when it is
taken; otherwise the row is updated in place. -/
def updateUser (db : DB) (id : Nat) (data : UpdateUserRequest) :
    DB × Except String UserRow :=
  match findById db id with
  | none => (db, .error "User not found")
  | some existingUser =>
    let emailConflict :=
      jsTruthy data.email &&
        data.email.getD "" != existingUser.email &&
        (findByEmail db (data.email.getD "")).isSome
    if emailConflict then
      (db, .error "Email already in use")
    else
      let updated := applyUpdate existingUser data
      (db.map (fun u => if u.id == id then updated else u), .ok updated)

/-- `UserService.loginUser` from `src/services/userService.ts`.
`findUnique` on the email: throws `'Invalid credentials'` when no row
matches; compares the password against the stored hash: throws
`'Invalid credentials'` when the comparison fails; on success returns the
row (the handler strips the password before serializing). -/
def loginUser (db : DB) (credentials : LoginRequest) : Except String UserRow :=
  match findByEmail db credentials.email with
  | none => .error "Invalid credentials"
  | some user =>
    if bcryptCompare credentials.password user.password then
      .ok user
    else
      .error "Invalid credentials"

/-- `UserService.deleteUser` from `src/services/userService.ts`. -/
def deleteUser (db : DB) (id : Nat) : DB × Except String String :=
  match findById db id with
  | none => (db, .error "User not found")
  | some _ =>
    (db.filter (fun u => u.id != id), .ok "User deleted successfully")

/-!
## JWT model

@fastify/jwt is an external library; its behavior is modelled from the
spec (§3 Issued Token, §4.1 IssueToken/VerifyToken).
-/

/-- The claims object passed to `fastify.jwt.sign({ id, email, name, role })`
in the login/register handlers of `src/routes/auth.ts` (= `UserPayload` in
`src/types/user.ts`). -/
structure Claims where
  id : Nat
  email : String
  name : String
  role : UserRole
deriving DecidableEq, Repr

/-- Modelled from the spec: an Issued Token is a signed, self-contained
bearer credential — "embedded claims = {id, email, name, role}; a signature
computed over those claims plus a secret key". -/
structure SignedToken where
  claims : Claims
  sig : String
deriving DecidableEq, Repr

/-- Modelled from the spec: deterministic encoding of the claims used as
the MAC input.  The encoding separates fields unambiguously. -/
def encodeClaims (c : Claims) : String :=
  toString c.id ++ "|" ++ toString c.email.length ++ "|" ++ c.email ++
    "|" ++ toString c.name.length ++ "|" ++ c.name ++
    "|" ++ (match c.role with | .USER => "USER" | .ADMIN => "ADMIN")

/-- Modelled from the spec: the signature over the claims plus the secret
(the MAC itself abstracted as an injective function of both). -/
def tokenSig (secret : String) (c : Claims) : String :=
  "hmac(" ++ toString secret.length ++ "|" ++ secret ++ "," ++ encodeClaims c ++ ")"

/-- Modelled from the spec: `IssueToken(claims)` — "deterministic encoding
of the claims plus a signature" under the process-wide secret
(`fastify.jwt.sign` in `src/routes/auth.ts`). -/
def issueToken (secret : String) (c : Claims) : SignedToken :=
  { claims := c, sig := tokenSig secret c }

/-- Modelled from the spec: `VerifyToken` — "Must accept only exact
signature matches"; returns the embedded claims as the Identity on success,
`none` (rejection) otherwise (`request.jwtVerify` in
`src/middleware/auth.ts`). -/
def verifyToken (secret : String) (t : SignedToken) : Option Claims :=
  if t.sig == tokenSig secret t.claims then some t.claims else none

/-!
## Middleware pipeline

`src/middleware/auth.ts` exports `authenticate` and an async `adminOnly`;
`src/middleware/admin.ts` exports a done-style `adminOnly`.  Protected
routes in `src/routes/users.ts` register `preHandler: [authenticate,
adminOnly]`; Fastify stops running the remaining hooks and the handler as
soon as a hook sends a reply.
-/

/-- An error reply sent by a middleware: HTTP status, `error` and `message`
fields of the JSON body. -/
structure Rejection where
  status : Nat
  error : String
  message : String
deriving DecidableEq, Repr

/-- `authenticate` from `src/middleware/auth.ts`: `request.jwtVerify()`
inspects the bearer token (absent → throws; present → verified against the
process secret); on failure replies
`401 { error: 'Unauthorized', message: 'Invalid or missing token' }`,
on success stores the claims in `request.user`. -/
def authenticate (secret : String) (rawToken : Option SignedToken) :
    Except Rejection Claims :=
  match rawToken with
  | none => .error { status := 401, error := "Unauthorized",
                     message := "Invalid or missing token" }
  | some t =>
    match verifyToken secret t with
    | none => .error { status := 401, error := "Unauthorized",
                       message := "Invalid or missing token" }
    | some c => .ok c

/-- `adminOnly` from `src/middleware/auth.ts`: replies 401 when
`request.user` is unset, 403 when the role is not `ADMIN`, and passes
otherwise. -/
def adminOnly (user : Option Claims) : Option Rejection :=
  match user with
  | none => some { status := 401, error := "Unauthorized",
                   message := "Authentication required" }
  | some u =>
    if u.role = .ADMIN then none
    else some { status := 403, error := "Forbidden",
                message := "Admin access required" }

/-- The done-style `adminOnly` from `src/middleware/admin.ts`:
`request.user?.role !== 'ADMIN'` replies 403 (even when `request.user` is
unset, since optional chaining yields `undefined ≠ 'ADMIN'`). -/
def adminOnlyDoneStyle (user : Option Claims) : Option Rejection :=
  match user with
  | some u =>
    if u.role = .ADMIN then none
    else some { status := 403, error := "Forbidden",
                message := "Admin access required" }
  | none => some { status := 403, error := "Forbidden",
                   message := "Admin access required" }

/-- Which stage of a protected route's `preHandler` chain produced the
outcome. -/
inductive Stage where
  | tokenVerification : Stage
  | roleCheck : Stage
deriving DecidableEq, Repr

/-- Outcome of the `preHandler: [authenticate, adminOnly]` chain. -/
inductive PipelineResult where
  | rejected : Stage → Rejection → PipelineResult
  | permitted : Claims → PipelineResult
deriving DecidableEq, Repr

/-- The admin-protected `preHandler` chain of `src/routes/users.ts`:
`authenticate` runs first; if it replies, Fastify skips the remaining
hooks; otherwise `request.user` is set and `adminOnly` runs on it. -/
def runAdminProtected (secret : String) (rawToken : Option SignedToken) :
    PipelineResult :=
  match authenticate secret rawToken with
  | .error r => .rejected .tokenVerification r
  | .ok c =>
    match adminOnly (some c) with
    | some r => .rejected .roleCheck r
    | none => .permitted c

/-- The owner-or-admin guard of the `PUT /:id` handler in
`src/routes/users.ts` (and `UserController.updateUser`):
`if (request.user!.role !== 'ADMIN' && request.user!.id !== userId)` replies
`403 Forbidden / 'You can only update your own profile'`; otherwise the
update proceeds. -/
def ownerOrAdminGuard (user : Claims) (targetId : Nat) : Option Rejection :=
  if user.role ≠ .ADMIN ∧ user.id ≠ targetId then
    some { status := 403, error := "Forbidden",
           message := "You can only update your own profile" }
  else
    none

/-!
## Upload Streaming component

`handleFileUpload` in `src/utils/fileUpload.ts`.  The multipart source
stream is modelled as the list of its `data`-event chunk sizes (the size
guard only ever inspects `chunk.length`); the filesystem is modelled as a
list of (path, bytes-written) pairs.  The stream events are sequential in
the model: chunks arrive in order, then `end` fires; the size guard aborts
at the first chunk that pushes the counter over the limit, exactly as the
`data` handler does.
-/

/-- Filesystem model: the upload directory's files as (path, size). -/
abbrev FS := List (String × Nat)

/-- `existsSync`. -/
def fsExists (fs : FS) (path : String) : Bool :=
  fs.any (fun f => f.1 == path)

/-- `unlinkSync`: removes the entry at `path`. -/
def fsUnlink (fs : FS) (path : String) : FS :=
  fs.filter (fun f => f.1 != path)

/-- `createWriteStream(path)`: creates (or truncates) the file at `path`. -/
def fsCreate (fs : FS) (path : String) : FS :=
  fsUnlink fs path ++ [(path, 0)]

/-- `writeStream.write(chunk)`: appends `n` bytes to the file at `path`. -/
def fsAppend (fs : FS) (path : String) (n : Nat) : FS :=
  fs.map (fun f => if f.1 == path then (f.1, f.2 + n) else f)

/-- JavaScript `mimetype.startsWith('image/')`, as a structural
computation on the character lists. -/
def strStartsWith (s pre : String) : Bool :=
  s.data.take pre.data.length == pre.data

/-- JavaScript `filename.split('.').pop()`: the substring after the last
dot, or the whole string when it has no dot. -/
def jsExtOfFilename (s : String) : String :=
  String.mk ((s.data.reverse.takeWhile (fun c => c ≠ '.')).reverse)

/-- A multipart file part as `req.file()` returns it: declared filename,
declared media type, and the source stream's chunk sizes. -/
structure MultipartFile where
  filename : String
  mimetype : String
  chunks : List Nat
deriving DecidableEq, Repr

/-- The specific failure causes inside `handleFileUpload`'s `try` block
(each is a thrown `Error` in the source; the trailing `catch` wraps every
one of them into the generic `'Failed to upload file'`). -/
inductive UploadErr where
  /-- `'No file uploaded'` -/
  | noFile : UploadErr
  /-- `'Only image files are allowed'` (the spec's `ValidationError`) -/
  | notImage : UploadErr
  /-- `'File size exceeds the maximum allowed limit of 5MB'`
  (the spec's `PayloadTooLargeError`) -/
  | sizeExceeded : UploadErr
deriving DecidableEq, Repr

/-- `const maxSize = 5 * 1024 * 1024` in `handleFileUpload`. -/
def maxSize : Nat := 5 * 1024 * 1024

/-- `const UPLOAD_DIR = join(process.cwd(), 'storage', 'avatars')`. -/
def uploadDir : String := "storage/avatars"

/-- The stored filename
`` `user_${userId}_${randomUUID()}.${fileExt}` `` built by
`handleFileUpload`. -/
def uploadFileName (userId : Nat) (uuid : String) (filename : String) : String :=
  "user_" ++ toString userId ++ "_" ++ uuid ++ "." ++ jsExtOfFilename filename

/-- The destination path `join(UPLOAD_DIR, fileName)`. -/
def uploadFilePath (userId : Nat) (uuid : String) (filename : String) : String :=
  uploadDir ++ "/" ++ uploadFileName userId uuid filename

/-- The public URL `` `/src/storage/avatars/${fileName}` ``. -/
def uploadFileUrl (userId : Nat) (uuid : String) (filename : String) : String :=
  "/src/storage/avatars/" ++ uploadFileName userId uuid filename

/-- The result record `{ filePath, fileName, fileUrl }`. -/
structure FileUploadResult where
  filePath : String
  fileName : String
  fileUrl : String
deriving DecidableEq, Repr

/-- The `data`-event loop of `handleFileUpload`: for each chunk the counter
is incremented first; if it now exceeds `maxSize` the write stream is
destroyed with the size error, whose `error` handler deletes the partial
file before rejecting (the chunk that crossed the limit is never written);
otherwise the chunk is written and the loop continues.  An exhausted stream
is the `end` event: the write stream is closed and the promise resolves. -/
def writeChunks (fs : FS) (path : String) (fileSize : Nat) :
    List Nat → FS × Option UploadErr
  | [] => (fs, none)
  | c :: rest =>
    let fileSize' := fileSize + c
    if fileSize' > maxSize then
      (fsUnlink fs path, some .sizeExceeded)
    else
      writeChunks (fsAppend fs path c) path fileSize' rest

/-- The `try` block of `handleFileUpload` (`src/utils/fileUpload.ts`):
missing file part → `'No file uploaded'`; media type not starting with
`image/` → `'Only image files are allowed'` before the write stream is
opened; otherwise the destination name is
`user_<userId>_<uuid>.<ext>` with `ext = filename.split('.').pop()`, the
write stream is opened and the chunks streamed under the size guard.
`uuid` stands for the `randomUUID()` draw. -/
def handleFileUploadCore (fs : FS) (filePart : Option MultipartFile)
    (userId : Nat) (uuid : String) : FS × Except UploadErr FileUploadResult :=
  match filePart with
  | none => (fs, .error .noFile)
  | some data =>
    if !strStartsWith data.mimetype "image/" then
      (fs, .error .notImage)
    else
      let fileName := uploadFileName userId uuid data.filename
      let filePath := uploadFilePath userId uuid data.filename
      let fileUrl := uploadFileUrl userId uuid data.filename
      let fs1 := fsCreate fs filePath
      match writeChunks fs1 filePath 0 data.chunks with
      | (fs2, some e) => (fs2, .error e)
      | (fs2, none) =>
        (fs2, .ok { filePath := filePath, fileName := fileName, fileUrl := fileUrl })

/-- `handleFileUpload` as its callers see it: the `catch` block logs and
re-throws every failure as the generic `new Error('Failed to upload file')`. -/
def handleFileUpload (fs : FS) (filePart : Option MultipartFile)
    (userId : Nat) (uuid : String) : FS × Except String FileUploadResult :=
  match handleFileUploadCore fs filePart userId uuid with
  | (fs', .error _) => (fs', .error "Failed to upload file")
  | (fs', .ok r) => (fs', .ok r)

/-!
## Registration flow

The `/register` handler of `src/routes/auth.ts`.
-/

/-- Splits a character list around the first occurrence of `pat`, returning
the parts before and after it, or `none` when `pat` does not occur. -/
def splitAtFirstOcc (pat : List Char) : List Char → Option (List Char × List Char)
  | [] => if pat == [] then some ([], []) else none
  | c :: rest =>
    if (c :: rest).take pat.length == pat then
      some ([], (c :: rest).drop pat.length)
    else
      match splitAtFirstOcc pat rest with
      | some (pre, post) => some (c :: pre, post)
      | none => none

/-- JavaScript `String.prototype.replace(pat, repl)` with a string pattern:
replaces only the first occurrence (the handler's
`avatarUrl.replace('user_0_', ...)`). -/
def jsReplaceFirst (s pat repl : String) : String :=
  match splitAtFirstOcc pat.data s.data with
  | some (pre, post) => String.mk (pre ++ repl.data ++ post)
  | none => s

/-- The reply of the `/register` handler. -/
inductive RegisterReply where
  /-- `reply.status(201).send({ token, user })` -/
  | created : SignedToken → UserRow → RegisterReply
  /-- `reply.status(400).send({ error: 'Registration failed', message })` -/
  | failed : String → RegisterReply
deriving DecidableEq, Repr

/-- The `/register` handler of `src/routes/auth.ts` for a multipart request
carrying a file part.  The upload runs first with the placeholder user id
`0` (upload failure is swallowed and registration continues without
avatar); `userData` spreads the body and, when the upload succeeded, its
`fileUrl` as `avatar`; `createUser` runs next; then, when an avatar URL
exists and `user.id` is truthy (non-zero), the handler rewrites `user_0_`
to `user_<id>_` in the URL string and stores that via `updateUser` — no
filesystem rename accompanies the rewrite.  Errors from `createUser`
surface as a 400 reply.  Returns the final filesystem, database and reply. -/
def registerWithFile (fs : FS) (db : DB) (secret : String)
    (body : CreateUserRequest) (filePart : Option MultipartFile)
    (uuid : String) (newId : Nat) : FS × DB × RegisterReply :=
  let upload := handleFileUpload fs filePart 0 uuid
  let fs1 := upload.1
  let avatarUrl : Option String :=
    match upload.2 with
    | .ok r => some r.fileUrl
    | .error _ => none
  let userData : CreateUserRequest :=
    match avatarUrl with
    | some url => { body with avatar := some url }
    | none => body
  match createUser db userData newId with
  | (db1, .error e) => (fs1, db1, .failed e)
  | (db1, .ok user) =>
    match avatarUrl with
    | some url =>
      if user.id ≠ 0 then
        let updatedAvatarUrl :=
          jsReplaceFirst url "user_0_" ("user_" ++ toString user.id ++ "_")
        let avatarPatch : UpdateUserRequest :=
          { email := none, name := none,
            avatar := some updatedAvatarUrl, role := none }
        match updateUser db1 user.id avatarPatch with
        | (db2, .error e) => (fs1, db2, .failed e)
        | (db2, .ok _) =>
          let user' := { user with avatar := some updatedAvatarUrl }
          (fs1, db2, .created (issueToken secret
            { id := user'.id, email := user'.email, name := user'.name,
              role := user'.role }) user')
      else
        (fs1, db1, .created (issueToken secret
          { id := user.id, email := user.email, name := user.name,
            role := user.role }) user)
    | none =>
      (fs1, db1, .created (issueToken secret
        { id := user.id, email := user.email, name := user.name,
          role := user.role }) user)

/-!
## Helper lemmas
-/

/-- After `unlinkSync(path)` (the upload error-handler's cleanup) the path
no longer exists. -/
theorem fsExists_fsUnlink (fs : FS) (p : String) :
    fsExists (fsUnlink fs p) p = false := by
  simp only [fsExists, fsUnlink, List.any_eq_true, not_exists]
  simp only [List.any_eq_false]
  intro f hf
  have := List.of_mem_filter hf
  simpa using this

/-- `findUnique` on an email over a table extended by one row: when the
original table has no match, only the new row can match. -/
theorem findByEmail_append_single (db : DB) (r : UserRow) (e : String)
    (h : findByEmail db e = none) :
    findByEmail (db ++ [r]) e = if r.email == e then some r else none := by
  induction db with
  | nil =>
    simp only [List.nil_append, findByEmail, List.find?]
    cases hr : (r.email == e) <;> simp [hr]
  | cons u t ih =>
    simp only [findByEmail, List.cons_append, List.find?] at h ⊢
    cases hu : (u.email == e) with
    | true => simp [hu] at h
    | false =>
      simp only [hu] at h ⊢
      exact ih h

/-- The size guard of the `data`-event loop: whenever the stream delivers
more bytes than `maxSize` allows beyond the running counter, the loop
aborts with the size error and the destination path does not survive. -/
theorem writeChunks_oversize (chunks : List Nat) (fs : FS) (path : String)
    (acc : Nat) (hacc : acc ≤ maxSize) (h : maxSize < acc + chunks.sum) :
    (writeChunks fs path acc chunks).2 = some .sizeExceeded ∧
    fsExists (writeChunks fs path acc chunks).1 path = false := by
  induction chunks generalizing fs acc with
  | nil =>
    simp only [List.sum_nil, Nat.add_zero] at h
    omega
  | cons c rest ih =>
    simp only [writeChunks]
    by_cases hc : acc + c > maxSize
    · simp [hc, fsExists_fsUnlink]
    · push_neg at hc
      have hlt : ¬ (acc + c > maxSize) := by omega
      simp only [if_neg hlt]
      exact ih (fsAppend fs path c) (acc + c) hc
        (by simp only [List.sum_cons] at h; omega)

/-!
## Claims
-/

/-- C5: verifying a token freshly issued over a claims record under the
same signing secret succeeds and yields an Identity equal to the claims:
`verifyToken` is a left inverse of `issueToken`. -/
theorem c5_verify_issue_roundtrip (secret : String) (c : Claims) :
    verifyToken secret (issueToken secret c) = some c := by
  simp [verifyToken, issueToken]

/-- C7: the owner-or-admin guard of the `PUT /:id` handler passes exactly
when the caller's id equals the target id or the caller's role is `ADMIN`,
and in every other case replies with the 403 Forbidden rejection. -/
theorem c7_owner_or_admin_guard (u : Claims) (targetId : Nat) :
    (ownerOrAdminGuard u targetId = none ↔
      (u.id = targetId ∨ u.role = .ADMIN)) ∧
    (ownerOrAdminGuard u targetId =
        some { status := 403, error := "Forbidden",
               message := "You can only update your own profile" } ↔
      (u.id ≠ targetId ∧ u.role ≠ .ADMIN)) := by
  unfold ownerOrAdminGuard
  by_cases hrole : u.role = .ADMIN
  · simp [hrole]
  · by_cases hid : u.id = targetId
    · simp [hrole, hid]
    · simp [hrole, hid]

/-- C3: a login with a registered email but a wrong password and a login
with an unregistered email fail with the very same thrown error, so the two
failure runs are observationally equal (anti-enumeration). -/
theorem c3_anti_enumeration (db : DB) (u : UserRow)
    (wrongPw unknownEmail anyPw : String)
    (hreg : findByEmail db u.email = some u)
    (hwrong : bcryptCompare wrongPw u.password = false)
    (hunknown : findByEmail db unknownEmail = none) :
    loginUser db { email := u.email, password := wrongPw } =
        .error "Invalid credentials" ∧
    loginUser db { email := unknownEmail, password := anyPw } =
        .error "Invalid credentials" ∧
    loginUser db { email := u.email, password := wrongPw } =
      loginUser db { email := unknownEmail, password := anyPw } := by
  simp [loginUser, hreg, hunknown, hwrong]

/-- C3 witness: a concrete one-account table where the wrong-password run
and the unknown-email run coincide. -/
theorem c3_anti_enumeration_witness :
    loginUser [{ id := 1, email := "jane@x.com", password := bcryptHash "secret1",
                 name := "Jane", avatar := none, role := .USER }]
        { email := "jane@x.com", password := "hunter2" } =
      loginUser [{ id := 1, email := "jane@x.com", password := bcryptHash "secret1",
                   name := "Jane", avatar := none, role := .USER }]
        { email := "nobody@x.com", password := "hunter2" } :=
  (c3_anti_enumeration
    [{ id := 1, email := "jane@x.com", password := bcryptHash "secret1",
       name := "Jane", avatar := none, role := .USER }]
    { id := 1, email := "jane@x.com", password := bcryptHash "secret1",
      name := "Jane", avatar := none, role := .USER }
    "hunter2" "nobody@x.com" "hunter2"
    (by decide) (by decide) (by decide)).2.2

/-- C8: once an email is registered (a `createUser` that succeeded), a
second `createUser` with the same email throws the
`'User with this email already exists'` conflict and leaves the table
unchanged: no second record is created. -/
theorem c8_duplicate_email_conflict (db db1 : DB) (body body2 : CreateUserRequest)
    (u : UserRow) (newId newId2 : Nat)
    (h1 : createUser db body newId = (db1, .ok u))
    (h2 : body2.email = body.email) :
    createUser db1 body2 newId2 =
      (db1, .error "User with this email already exists") := by
  unfold createUser at h1
  cases hfind : findByEmail db body.email with
  | some v =>
    rw [hfind] at h1
    simp at h1
  | none =>
    rw [hfind] at h1
    simp only [Prod.mk.injEq, Except.ok.injEq] at h1
    obtain ⟨hdb, hu⟩ := h1
    unfold createUser
    rw [h2, ← hdb]
    rw [findByEmail_append_single db _ body.email hfind]
    simp

/-- C8 witness: registering `jane@x.com` twice; the second call throws the
conflict and the table keeps the single record. -/
theorem c8_duplicate_email_conflict_witness :
    createUser
        [{ id := 1, email := "jane@x.com", password := bcryptHash "secret1",
           name := "Jane", avatar := none, role := .USER }]
        { email := "jane@x.com", name := "Janet", password := "other1",
          avatar := none, role := none } 2 =
      ([{ id := 1, email := "jane@x.com", password := bcryptHash "secret1",
          name := "Jane", avatar := none, role := .USER }],
       .error "User with this email already exists") :=
  c8_duplicate_email_conflict []
    [{ id := 1, email := "jane@x.com", password := bcryptHash "secret1",
       name := "Jane", avatar := none, role := .USER }]
    { email := "jane@x.com", name := "Jane", password := "secret1",
      avatar := none, role := none }
    { email := "jane@x.com", name := "Janet", password := "other1",
      avatar := none, role := none }
    { id := 1, email := "jane@x.com", password := bcryptHash "secret1",
      name := "Jane", avatar := none, role := .USER }
    1 2 rfl rfl

/-- C10: for an existing user, `updateUser` throws the
`'Email already in use'` conflict exactly when the payload supplies a
(nonempty) email different from the user's current one that some record of
the table already carries; in particular re-supplying the user's own
current email never throws the conflict. -/
theorem c10_update_email_conflict_iff (db : DB) (id : Nat) (u : UserRow)
    (data : UpdateUserRequest) (e : String)
    (hu : findById db id = some u) (he : data.email = some e) (hne : e ≠ "") :
    ((updateUser db id data).2 = .error "Email already in use" ↔
      (e ≠ u.email ∧ (findByEmail db e).isSome = true)) ∧
    (e = u.email → (updateUser db id data).2 ≠ .error "Email already in use") := by
  by_cases heq : e = u.email
  · constructor
    · simp [updateUser, hu, he, jsTruthy, heq]
    · intro _
      simp [updateUser, hu, he, jsTruthy, heq]
  · by_cases hfind : (findByEmail db e).isSome
    · constructor
      · simp [updateUser, hu, he, jsTruthy, hne, heq, hfind]
      · intro habs
        exact absurd habs heq
    · constructor
      · simp [updateUser, hu, he, jsTruthy, hne, heq, hfind]
      · intro habs
        exact absurd habs heq

/-- C10 witness: with two records, updating the first to the second's email
throws the conflict (and the iff's right side holds). -/
theorem c10_update_email_conflict_iff_witness :
    ((updateUser
        [{ id := 1, email := "jane@x.com", password := "h1", name := "Jane",
           avatar := none, role := .USER },
         { id := 2, email := "bob@x.com", password := "h2", name := "Bob",
           avatar := none, role := .USER }] 1
        { email := some "bob@x.com", name := none, avatar := none,
          role := none }).2 = .error "Email already in use" ↔
      ("bob@x.com" ≠ "jane@x.com" ∧
        (findByEmail
          [{ id := 1, email := "jane@x.com", password := "h1", name := "Jane",
             avatar := none, role := .USER },
           { id := 2, email := "bob@x.com", password := "h2", name := "Bob",
             avatar := none, role := .USER }] "bob@x.com").isSome = true)) ∧
    ("bob@x.com" = "jane@x.com" →
      (updateUser
        [{ id := 1, email := "jane@x.com", password := "h1", name := "Jane",
           avatar := none, role := .USER },
         { id := 2, email := "bob@x.com", password := "h2", name := "Bob",
           avatar := none, role := .USER }] 1
        { email := some "bob@x.com", name := none, avatar := none,
          role := none }).2 ≠ .error "Email already in use") :=
  c10_update_email_conflict_iff
    [{ id := 1, email := "jane@x.com", password := "h1", name := "Jane",
       avatar := none, role := .USER },
     { id := 2, email := "bob@x.com", password := "h2", name := "Bob",
       avatar := none, role := .USER }] 1
    { id := 1, email := "jane@x.com", password := "h1", name := "Jane",
      avatar := none, role := .USER }
    { email := some "bob@x.com", name := none, avatar := none, role := none }
    "bob@x.com" (by decide) (by decide) (by decide)

/-- C1 counterexample: a self-service `/register` request that supplies
`role: 'ADMIN'` (which `registerSchema` admits) creates a Credential Record
whose role is `ADMIN`, not `USER` — the self-service path does not force
`USER`. -/
theorem c1_counterexample :
    ((registerWithFile [] [] "secret"
        { email := "eve@x.com", name := "Eve", password := "secret1",
          avatar := none, role := some .ADMIN } none "u1" 1).2.1).map
        UserRow.role = [UserRole.ADMIN] ∧
    UserRole.ADMIN ≠ UserRole.USER := by
  constructor
  · rfl
  · decide

/-- C1 amended: the self-service `/register` handler spreads the request
body into `createUser` unchanged, so the created record's role is the
supplied role when one is present and falls back to the schema default
`USER` only when the body carries none. -/
theorem c1_role_passthrough (fs : FS) (db : DB) (secret : String)
    (body : CreateUserRequest) (uuid : String) (newId : Nat)
    (hfresh : findByEmail db body.email = none) :
    (registerWithFile fs db secret body none uuid newId).2.2 =
      .created
        (issueToken secret
          { id := newId, email := body.email, name := body.name,
            role := body.role.getD .USER })
        { id := newId, email := body.email,
          password := bcryptHash body.password, name := body.name,
          avatar := body.avatar, role := body.role.getD .USER } := by
  simp [registerWithFile, handleFileUpload, handleFileUploadCore,
    createUser, hfresh]

/-- C1 witness: a fresh-table registration without a role defaults to
`USER`. -/
theorem c1_role_passthrough_witness :
    (registerWithFile [] [] "secret"
        { email := "jane@x.com", name := "Jane", password := "secret1",
          avatar := none, role := none } none "u1" 1).2.2 =
      .created
        (issueToken "secret"
          { id := 1, email := "jane@x.com", name := "Jane", role := .USER })
        { id := 1, email := "jane@x.com", password := bcryptHash "secret1",
          name := "Jane", avatar := none, role := .USER } :=
  c1_role_passthrough [] [] "secret"
    { email := "jane@x.com", name := "Jane", password := "secret1",
      avatar := none, role := none } "u1" 1 rfl

/-- C4: in the protected `preHandler` chain, a missing or unverifiable
token is rejected 401 by the token-verification stage and the role check
never runs; a verified identity whose role is not `ADMIN` is rejected 403
by the role-check stage; a verified `ADMIN` is permitted; and every 401
rejection the chain produces comes from the token-verification stage, so
the role check never rejects an anonymous caller. -/
theorem c4_auth_before_role (secret : String) (rawToken : Option SignedToken) :
    (rawToken.bind (verifyToken secret) = none →
      runAdminProtected secret rawToken =
        .rejected .tokenVerification
          { status := 401, error := "Unauthorized",
            message := "Invalid or missing token" }) ∧
    (∀ c, rawToken.bind (verifyToken secret) = some c → c.role ≠ .ADMIN →
      runAdminProtected secret rawToken =
        .rejected .roleCheck
          { status := 403, error := "Forbidden",
            message := "Admin access required" }) ∧
    (∀ c, rawToken.bind (verifyToken secret) = some c → c.role = .ADMIN →
      runAdminProtected secret rawToken = .permitted c) ∧
    (∀ s r, runAdminProtected secret rawToken = .rejected s r →
      r.status = 401 → s = .tokenVerification) := by
  cases rawToken with
  | none =>
    refine ⟨fun _ => rfl, ?_, ?_, ?_⟩
    · intro c hc
      simp at hc
    · intro c hc
      simp at hc
    · intro s r hr h401
      have hin : Stage.tokenVerification = s := by
        have hr' : PipelineResult.rejected Stage.tokenVerification
            { status := 401, error := "Unauthorized",
              message := "Invalid or missing token" } = .rejected s r := hr
        exact (PipelineResult.rejected.inj hr').1
      exact hin.symm
  | some t =>
    cases hv : verifyToken secret t with
    | none =>
      refine ⟨?_, ?_, ?_, ?_⟩
      · intro _
        simp [runAdminProtected, authenticate, hv]
      · intro c hc
        simp [hv] at hc
      · intro c hc
        simp [hv] at hc
      · intro s r hr h401
        simp [runAdminProtected, authenticate, hv] at hr
        exact hr.1.symm
    | some c =>
      by_cases hrole : c.role = .ADMIN
      · refine ⟨?_, ?_, ?_, ?_⟩
        · intro hnone
          simp [hv] at hnone
        · intro c' hc' hrole'
          simp [hv] at hc'
          subst hc'
          exact absurd hrole hrole'
        · intro c' hc' _
          simp [hv] at hc'
          subst hc'
          simp [runAdminProtected, authenticate, adminOnly, hv, hrole]
        · intro s r hr h401
          simp [runAdminProtected, authenticate, adminOnly, hv, hrole] at hr
      · refine ⟨?_, ?_, ?_, ?_⟩
        · intro hnone
          simp [hv] at hnone
        · intro c' hc' _
          simp [hv] at hc'
          subst hc'
          simp [runAdminProtected, authenticate, adminOnly, hv, hrole]
        · intro c' hc' hrole'
          simp [hv] at hc'
          subst hc'
          exact absurd hrole' hrole
        · intro s r hr h401
          simp [runAdminProtected, authenticate, adminOnly, hv, hrole] at hr
          obtain ⟨hs, hrr⟩ := hr
          subst hrr
          simp at h401

/-- C4 witness: the anonymous request is rejected 401 by the
token-verification stage, and a verified non-admin token is rejected 403 by
the role check. -/
theorem c4_auth_before_role_witness :
    runAdminProtected "secret" none =
      .rejected .tokenVerification
        { status := 401, error := "Unauthorized",
          message := "Invalid or missing token" } ∧
    runAdminProtected "secret"
        (some (issueToken "secret"
          { id := 1, email := "jane@x.com", name := "Jane", role := .USER })) =
      .rejected .roleCheck
        { status := 403, error := "Forbidden",
          message := "Admin access required" } :=
  ⟨(c4_auth_before_role "secret" none).1 rfl,
   (c4_auth_before_role "secret"
      (some (issueToken "secret"
        { id := 1, email := "jane@x.com", name := "Jane", role := .USER }))).2.1
     { id := 1, email := "jane@x.com", name := "Jane", role := .USER }
     (by simp [issueToken, verifyToken]) (by decide)⟩

/-- C2: an upload declared as an image whose source stream delivers more
than `maxSize` bytes fails with the size-limit error (the spec's
`PayloadTooLargeError`; the surrounding `catch` re-throws it as the generic
`'Failed to upload file'`), and afterwards no file exists at the would-be
destination path: the partially written file is deleted before the error
propagates. -/
theorem c2_oversize_upload_cleanup (fs : FS) (f : MultipartFile)
    (userId : Nat) (uuid : String)
    (him : strStartsWith f.mimetype "image/" = true)
    (hsz : maxSize < f.chunks.sum) :
    (handleFileUploadCore fs (some f) userId uuid).2 =
        .error .sizeExceeded ∧
    fsExists (handleFileUploadCore fs (some f) userId uuid).1
        (uploadFilePath userId uuid f.filename) = false ∧
    (handleFileUpload fs (some f) userId uuid).2 =
        .error "Failed to upload file" := by
  have hwc := writeChunks_oversize f.chunks
    (fsCreate fs (uploadFilePath userId uuid f.filename))
    (uploadFilePath userId uuid f.filename) 0 (Nat.zero_le _)
    (by simpa using hsz)
  have hcore : handleFileUploadCore fs (some f) userId uuid =
      (((writeChunks (fsCreate fs (uploadFilePath userId uuid f.filename))
          (uploadFilePath userId uuid f.filename) 0 f.chunks).1),
        .error .sizeExceeded) := by
    unfold handleFileUploadCore
    simp only [him, Bool.not_true, Bool.false_eq_true, if_false]
    cases hw : writeChunks (fsCreate fs (uploadFilePath userId uuid f.filename))
        (uploadFilePath userId uuid f.filename) 0 f.chunks with
    | mk fs2 res =>
      cases res with
      | none =>
        rw [hw] at hwc
        simp at hwc
      | some e =>
        rw [hw] at hwc
        simp at hwc
        simp [hwc.1]
  refine ⟨by rw [hcore], ?_, ?_⟩
  · rw [hcore]
    exact hwc.2
  · unfold handleFileUpload
    rw [hcore]

/-- C2 witness: a PNG-declared stream of exactly `maxSize + 1` bytes is
rejected with the size error and leaves nothing at the destination path. -/
theorem c2_oversize_upload_cleanup_witness :
    (handleFileUploadCore []
        (some { filename := "big.png", mimetype := "image/png",
                chunks := [maxSize, 1] }) 7 "u1").2 =
        .error .sizeExceeded ∧
    fsExists (handleFileUploadCore []
        (some { filename := "big.png", mimetype := "image/png",
                chunks := [maxSize, 1] }) 7 "u1").1
        (uploadFilePath 7 "u1" "big.png") = false ∧
    (handleFileUpload []
        (some { filename := "big.png", mimetype := "image/png",
                chunks := [maxSize, 1] }) 7 "u1").2 =
        .error "Failed to upload file" :=
  c2_oversize_upload_cleanup []
    { filename := "big.png", mimetype := "image/png", chunks := [maxSize, 1] }
    7 "u1" (by decide) (by simp [maxSize])

/-- C6: an upload whose declared media type does not start with `image/`
fails with the image-only validation error (the spec's `ValidationError`;
the `catch` re-throws it as the generic `'Failed to upload file'`) before
the write stream is opened: the filesystem is returned exactly as it was,
so no byte is written and no destination file is created. -/
theorem c6_non_image_rejected_before_write (fs : FS) (f : MultipartFile)
    (userId : Nat) (uuid : String)
    (him : strStartsWith f.mimetype "image/" = false) :
    handleFileUploadCore fs (some f) userId uuid = (fs, .error .notImage) ∧
    handleFileUpload fs (some f) userId uuid =
      (fs, .error "Failed to upload file") := by
  have hcore : handleFileUploadCore fs (some f) userId uuid =
      (fs, .error .notImage) := by
    unfold handleFileUploadCore
    simp [him]
  exact ⟨hcore, by unfold handleFileUpload; rw [hcore]⟩

/-- C6 witness: a `text/plain` upload is rejected with the filesystem
untouched. -/
theorem c6_non_image_rejected_before_write_witness :
    handleFileUploadCore [("storage/avatars/existing.png", 3)]
        (some { filename := "notes.txt", mimetype := "text/plain",
                chunks := [1, 2] }) 7 "u1" =
      ([("storage/avatars/existing.png", 3)], .error .notImage) ∧
    handleFileUpload [("storage/avatars/existing.png", 3)]
        (some { filename := "notes.txt", mimetype := "text/plain",
                chunks := [1, 2] }) 7 "u1" =
      ([("storage/avatars/existing.png", 3)],
        .error "Failed to upload file") :=
  c6_non_image_rejected_before_write [("storage/avatars/existing.png", 3)]
    { filename := "notes.txt", mimetype := "text/plain", chunks := [1, 2] }
    7 "u1" (by decide)

/-- C9: registering Jane with a 10-byte PNG avatar (uuid draw `u1`, real id
1) stores the file on disk under the placeholder name `user_0_u1.png` and
persists the rewritten URL `/src/storage/avatars/user_1_u1.png` in the
record — but the file is never renamed: nothing exists on disk under the
real-id name the persisted URL refers to. -/
theorem c9_placeholder_file_not_renamed :
    fsExists (registerWithFile [] [] "secret"
        { email := "jane@x.com", name := "Jane", password := "secret1",
          avatar := none, role := none }
        (some { filename := "a.png", mimetype := "image/png", chunks := [10] })
        "u1" 1).1 "storage/avatars/user_0_u1.png" = true ∧
    fsExists (registerWithFile [] [] "secret"
        { email := "jane@x.com", name := "Jane", password := "secret1",
          avatar := none, role := none }
        (some { filename := "a.png", mimetype := "image/png", chunks := [10] })
        "u1" 1).1 "storage/avatars/user_1_u1.png" = false ∧
    ((registerWithFile [] [] "secret"
        { email := "jane@x.com", name := "Jane", password := "secret1",
          avatar := none, role := none }
        (some { filename := "a.png", mimetype := "image/png", chunks := [10] })
        "u1" 1).2.1).map UserRow.avatar =
      [some "/src/storage/avatars/user_1_u1.png"] := by
  refine ⟨by decide, by decide, by decide⟩
